import Mathlib

/-!
Verification of the type-erasure components of the CleanArchCpp corpus.

The development shallowly embeds the two type-erasure translation units:

* `cpp/dp_type_erasure.cpp` — the classic external-polymorphism erasers
  (`Drawable`, `Callable`, `Serializable`) with their `Concept`/`Model`
  pImpl storage, plus the concrete `Circle`, `Rectangle`, `Triangle`
  types.  Heap-allocated `Model` objects are modelled explicitly as cells
  of a `DrawHeap` so that copy (fresh allocation via `clone`) and move
  (pointer transfer, no allocation) keep their aliasing content.

* `pattern/dp_type_erasure_optimized.cpp` — `BadTypeEraser`,
  `ModernTypeEraser`, `AnyTypeEraser`, the virtual-interface
  `TypeErasureContainer` over `IOperation`, the `is_printable` /
  `is_calculable` / `is_executable` traits and the `static_assert`-gated
  `ConceptBasedEraser`, together with the example types `Calculator`,
  `Adder`, `Multiplier`, `PrintOperation`, `MathOperation`.

Console output of a `print` / `draw` / `execute` member is modelled as the
`String` the C++ code streams to `std::cout`; `calculate` is `Int → Int`.
C++ machine `int` overflow never occurs at the magnitudes exercised here,
and no claim depends on wrap-around, so `Int` is used directly.
An empty `std::function` (default construction or moved-from state under
the mainstream library implementations, which leave the source empty) is
`none`; the null `unique_ptr` held by a moved-from pImpl wrapper is a
`none` pointer field.
-/

namespace CleanArch

/-! ### Concrete value types of pattern/dp_type_erasure_optimized.cpp -/

/-- Models `Calculator` (multiplier_ member). -/
structure Calculator where
  multiplier_ : Int
deriving DecidableEq, Repr

/-- Models `Calculator::print` output line. -/
def Calculator.print (c : Calculator) : String :=
  "Calculator with multiplier: " ++ toString c.multiplier_

/-- Models `Calculator::calculate(int)` : `value * multiplier_`. -/
def Calculator.calculate (c : Calculator) (value : Int) : Int :=
  value * c.multiplier_

/-- Models `Adder` (addend_ member). -/
structure Adder where
  addend_ : Int
deriving DecidableEq, Repr

/-- Models `Adder::print` output line. -/
def Adder.print (a : Adder) : String :=
  "Adder with addend: " ++ toString a.addend_

/-- Models `Adder::calculate(int)` : `value + addend_`. -/
def Adder.calculate (a : Adder) (value : Int) : Int :=
  value + a.addend_

/-- Models `Multiplier` (factor_ member). -/
structure Multiplier where
  factor_ : Int
deriving DecidableEq, Repr

/-- Models `Multiplier::print` output line. -/
def Multiplier.print (m : Multiplier) : String :=
  "Multiplier with factor: " ++ toString m.factor_

/-- Models `Multiplier::calculate(int)` : `value * factor_`. -/
def Multiplier.calculate (m : Multiplier) (value : Int) : Int :=
  value * m.factor_

/-! ### ModernTypeEraser

The C++ class stores one `std::function` per capability.  The template
constructor initializes the members in declaration order with successive
`[value = std::move(value)]` init-captures: `printFunc_`'s lambda
move-constructs its capture from the intact parameter, after which the
parameter is moved-from, so `calculateFunc_`'s lambda captures the
*moved-from* parameter (and `cloneFunc_`'s a twice-moved one).  The
moved-from state a type's move constructor leaves behind is therefore
part of the embedding: it is carried as an explicit `MoveSemantics`
record per concrete type (the identity for the trivially copyable
example types, whose member-wise `int` move is a copy).  The
`cloneFunc_` member merely re-wraps the (twice-moved) captured value and
is not needed by any property below, so it is not carried in the
model. -/

/-- Move-construction semantics of a C++ type: `movedFrom v` is the
state a source object holding `v` is left in after being
move-constructed from.  For trivially copyable types this is the
identity; for types holding a `std::string` the mainstream library
implementations leave the source string empty. -/
structure MoveSemantics (T : Type) where
  movedFrom : T → T

/-- Move semantics of `Calculator`: the defaulted member-wise move of
the single `int` member is a copy, the source is left unchanged. -/
def Calculator.moveSemantics : MoveSemantics Calculator := ⟨fun c => c⟩

/-- Move semantics of `Adder` (single `int` member, move is a copy). -/
def Adder.moveSemantics : MoveSemantics Adder := ⟨fun a => a⟩

/-- Move semantics of `Multiplier` (single `int` member). -/
def Multiplier.moveSemantics : MoveSemantics Multiplier := ⟨fun m => m⟩

/-- The duck-typed capability set required of a type wrapped by
`ModernTypeEraser` / `FunctionTypeEraser`: a `print() const` member
(modelled by its output line) and a `calculate(int) const` member. -/
structure PrintCalcCapable (T : Type) where
  print : T → String
  calculate : T → Int → Int

/-- The `{print, calculate}` capability record of `Calculator`. -/
def Calculator.capability : PrintCalcCapable Calculator :=
  ⟨Calculator.print, Calculator.calculate⟩

/-- The `{print, calculate}` capability record of `Adder`. -/
def Adder.capability : PrintCalcCapable Adder :=
  ⟨Adder.print, Adder.calculate⟩

/-- The `{print, calculate}` capability record of `Multiplier`. -/
def Multiplier.capability : PrintCalcCapable Multiplier :=
  ⟨Multiplier.print, Multiplier.calculate⟩

/-- Models `ModernTypeEraser`: `printFunc_` and `calculateFunc_` are
`std::function` members (`none` = empty function), `typeName_` the stored
`typeid(T).name()` string. -/
structure ModernTypeEraser where
  printFunc_ : Option (Unit → String)
  calculateFunc_ : Option (Int → Int)
  typeName_ : String

/-- Models `ModernTypeEraser()` default constructor: both functions empty. -/
def ModernTypeEraser.defaultCtor : ModernTypeEraser :=
  { printFunc_ := none, calculateFunc_ := none, typeName_ := "" }

/-- The template constructor `ModernTypeEraser(T value)`: `printFunc_`
captures the parameter's original content, but by the time
`calculateFunc_`'s init-capture runs the parameter has already been
moved from, so its closure is bound to the moved-from state; `tyName`
stands for the implementation-defined `typeid(T).name()` string. -/
def ModernTypeEraser.ofValue {T : Type} (cap : PrintCalcCapable T)
    (mv : MoveSemantics T) (value : T) (tyName : String) : ModernTypeEraser :=
  { printFunc_ := some (fun _ => cap.print value)
    calculateFunc_ := some (fun x => cap.calculate (mv.movedFrom value) x)
    typeName_ := tyName }

/-- Models `ModernTypeEraser::print() const`: calls `printFunc_` only if it is
non-empty; output lines produced (empty list when guarded out). -/
def ModernTypeEraser.printOut (e : ModernTypeEraser) : List String :=
  match e.printFunc_ with
  | some f => [f ()]
  | none => []

/-- Models `ModernTypeEraser::calculate(int) const`: calls `calculateFunc_` when
non-empty, otherwise returns the fallback `0`. -/
def ModernTypeEraser.calculate (e : ModernTypeEraser) (value : Int) : Int :=
  match e.calculateFunc_ with
  | some f => f value
  | none => 0

/-- Models `ModernTypeEraser::isValid() const` : `printFunc_ && calculateFunc_`. -/
def ModernTypeEraser.isValid (e : ModernTypeEraser) : Bool :=
  e.printFunc_.isSome && e.calculateFunc_.isSome

/-- Models `ModernTypeEraser::getTypeName() const`. -/
def ModernTypeEraser.getTypeName (e : ModernTypeEraser) : String :=
  e.typeName_

/-- The defaulted move constructor: the destination takes the members;
the moved-from source is left with empty `std::function`s and an empty
string (the state the mainstream library implementations leave).
Returns (destination, source-after-move). -/
def ModernTypeEraser.moveCtor (src : ModernTypeEraser) :
    ModernTypeEraser × ModernTypeEraser :=
  ({ printFunc_ := src.printFunc_
     calculateFunc_ := src.calculateFunc_
     typeName_ := src.typeName_ },
   { printFunc_ := none, calculateFunc_ := none, typeName_ := "" })

/-- State-passing form of the const member `print`: the method cannot
rebind any member, so the post-state is the receiver unchanged. -/
def ModernTypeEraser.printS (e : ModernTypeEraser) :
    List String × ModernTypeEraser :=
  (e.printOut, e)

/-- State-passing form of the const member `calculate`. -/
def ModernTypeEraser.calculateS (e : ModernTypeEraser) (value : Int) :
    Int × ModernTypeEraser :=
  (e.calculate value, e)

/-! ### FunctionTypeEraser (pattern/dp_type_erasure_optimized.cpp)

Same closure layout as `ModernTypeEraser` but with a `typeFunc_` member
and the `"Unknown"` fallback for `getTypeName`. -/

/-- Models `FunctionTypeEraser`: three `std::function` members. -/
structure FunctionTypeEraser where
  printFunc_ : Option (Unit → String)
  calculateFunc_ : Option (Int → Int)
  typeFunc_ : Option (Unit → String)

/-- The template constructor `FunctionTypeEraser(T value)`: the same
successive `[value = std::move(value)]` init-captures as
`ModernTypeEraser`, so `calculateFunc_` is bound to the moved-from
state; `typeFunc_` captures a twice-moved value but only reads its
static type name. -/
def FunctionTypeEraser.ofValue {T : Type} (cap : PrintCalcCapable T)
    (mv : MoveSemantics T) (value : T) (tyName : String) : FunctionTypeEraser :=
  { printFunc_ := some (fun _ => cap.print value)
    calculateFunc_ := some (fun x => cap.calculate (mv.movedFrom value) x)
    typeFunc_ := some (fun _ => tyName) }

/-- Models `FunctionTypeEraser::print() const`: guarded by `if (printFunc_)`. -/
def FunctionTypeEraser.printOut (e : FunctionTypeEraser) : List String :=
  match e.printFunc_ with
  | some f => [f ()]
  | none => []

/-- Models `FunctionTypeEraser::calculate(int) const`:
`calculateFunc_ ? calculateFunc_(value) : 0`. -/
def FunctionTypeEraser.calculate (e : FunctionTypeEraser) (value : Int) : Int :=
  match e.calculateFunc_ with
  | some f => f value
  | none => 0

/-- Models `FunctionTypeEraser::getTypeName() const`:
`typeFunc_ ? typeFunc_() : "Unknown"`. -/
def FunctionTypeEraser.getTypeName (e : FunctionTypeEraser) : String :=
  match e.typeFunc_ with
  | some f => f ()
  | none => "Unknown"

/-- The moved-from state of a `FunctionTypeEraser` (the class has no
default constructor; an all-empty instance arises only from a move). -/
def FunctionTypeEraser.movedFrom : FunctionTypeEraser :=
  { printFunc_ := none, calculateFunc_ := none, typeFunc_ := none }

/-! ### Drawable (cpp/dp_type_erasure.cpp)

`Drawable` owns a `unique_ptr<Concept>` pointing at a heap-allocated
`Model<T>` that stores the wrapped object by value.  The heap is explicit
so that allocation, cloning and pointer transfer are observable: a
`DrawHeap` is the sequence of allocated `Model` cells, a `Drawable` holds
the index of its cell (`none` = null pointer of a moved-from wrapper). -/

/-- The capability set `{draw}`: a `draw() const` member, modelled by the
line it prints. -/
structure DrawCapable (T : Type) where
  draw : T → String

/-- A heap-allocated `Model<T>` object: the concrete type, its `draw`
binding (the virtual-dispatch table entry) and the stored object. -/
structure DrawCell : Type 1 where
  Ty : Type
  inst : DrawCapable Ty
  object : Ty

/-- The allocation sequence of `Model` cells. -/
abbrev DrawHeap := List DrawCell

/-- Models `Drawable`: the `pImpl` pointer as an index into the heap; `none` is
the null pointer left behind by a move. -/
structure Drawable where
  pImpl : Option Nat
deriving DecidableEq, Repr

/-- The template constructor `Drawable(T&& obj)`: allocates a fresh
`Model<T>` cell holding `obj` and points `pImpl` at it. -/
def Drawable.make {T : Type} (h : DrawHeap) (inst : DrawCapable T) (obj : T) :
    DrawHeap × Drawable :=
  (h ++ [⟨T, inst, obj⟩], ⟨some h.length⟩)

/-- Models `Model<T>::clone`: a fresh cell holding a copy of the object. -/
def DrawCell.clone (c : DrawCell) : DrawCell :=
  ⟨c.Ty, c.inst, c.object⟩

/-- Models `Drawable::draw() const` : `pImpl->draw()`, which virtually
dispatches to `Model<T>::draw`, which calls `object.draw()`.  A null
`pImpl` (moved-from wrapper) dereference is undefined: `none`. -/
def Drawable.draw (h : DrawHeap) (d : Drawable) : Option String :=
  d.pImpl.bind fun i => h[i]?.map fun c => c.inst.draw c.object

/-- The copy constructor `Drawable(const Drawable&)` :
`pImpl(other.pImpl->clone())` allocates a fresh cell holding a clone of
the source cell.  Dereferencing a null source `pImpl` is undefined
(empty result). -/
def Drawable.copy (h : DrawHeap) (d : Drawable) : DrawHeap × Drawable :=
  match d.pImpl with
  | some i =>
    match h[i]? with
    | some c => (h ++ [c.clone], ⟨some h.length⟩)
    | none => (h, ⟨none⟩)
  | none => (h, ⟨none⟩)

/-- The defaulted move constructor: the destination takes the
`unique_ptr`, the source is left null.  No heap access occurs.
Returns (destination, source-after-move). -/
def Drawable.moveCtor (src : Drawable) : Drawable × Drawable :=
  (⟨src.pImpl⟩, ⟨none⟩)

/-! ### Concrete shapes of cpp/dp_type_erasure.cpp

Dimensions are the exact integral quantities of the spec scenario
(`5`, `3x4`, `6/4`); `std::cout` prints the corresponding `double`
values `5.0`, `3.0`, ... without a decimal point, so the output lines
agree with `toString` on `Int`. -/

/-- Models `Circle` (radius member). -/
structure Circle where
  radius : Int
deriving DecidableEq, Repr

/-- Models `Circle::draw` output line. -/
def Circle.draw (c : Circle) : String :=
  "Drawing circle with radius: " ++ toString c.radius

/-- The `{draw}` capability record of `Circle`. -/
def Circle.capability : DrawCapable Circle := ⟨Circle.draw⟩

/-- Models `Rectangle` (width, height members). -/
structure Rectangle where
  width : Int
  height : Int
deriving DecidableEq, Repr

/-- Models `Rectangle::draw` output line. -/
def Rectangle.draw (r : Rectangle) : String :=
  "Drawing rectangle: " ++ toString r.width ++ "x" ++ toString r.height

/-- The `{draw}` capability record of `Rectangle`. -/
def Rectangle.capability : DrawCapable Rectangle := ⟨Rectangle.draw⟩

/-- Models `Triangle` (base, height members). -/
structure Triangle where
  base : Int
  height : Int
deriving DecidableEq, Repr

/-- Models `Triangle::draw` output line. -/
def Triangle.draw (t : Triangle) : String :=
  "Drawing triangle: base=" ++ toString t.base ++ ", height=" ++ toString t.height

/-- The `{draw}` capability record of `Triangle`. -/
def Triangle.capability : DrawCapable Triangle := ⟨Triangle.draw⟩

/-! ### Callable and Serializable (cpp/dp_type_erasure.cpp)

Their `Concept`/`Model` storage is identical in shape to `Drawable`'s;
the properties below only need the dispatch result of a freshly wrapped
value, so the pImpl cell is carried inline. -/

/-- The capability set of `Callable`: `int call(int) const`. -/
structure CallCapable (F : Type) where
  call : F → Int → Int

/-- A `Callable` together with its `CallableModel<F>` cell. -/
structure CallableObj : Type 1 where
  F : Type
  inst : CallCapable F
  func : F

/-- The template constructor `Callable(F&& f)`. -/
def CallableObj.wrap {F : Type} (inst : CallCapable F) (f : F) : CallableObj :=
  ⟨F, inst, f⟩

/-- Models `Callable::operator()(int) const` : `pImpl->call(x)` dispatching to
`CallableModel<F>::call`, which calls `func(x)`. -/
def CallableObj.call (c : CallableObj) (x : Int) : Int :=
  c.inst.call c.func x

/-- The capability set of `Serializable`: `std::string serialize() const`. -/
structure SerializeCapable (T : Type) where
  serialize : T → String

/-- A `Serializable` together with its `SerializableModel<T>` cell. -/
structure SerializableObj : Type 1 where
  Ty : Type
  inst : SerializeCapable Ty
  object : Ty

/-- The template constructor `Serializable(T&& obj)`. -/
def SerializableObj.wrap {T : Type} (inst : SerializeCapable T) (obj : T) :
    SerializableObj :=
  ⟨T, inst, obj⟩

/-- Models `Serializable::serialize() const` : dispatches to
`SerializableModel<T>::serialize`, which calls `object.serialize()`. -/
def SerializableObj.serialize (s : SerializableObj) : String :=
  s.inst.serialize s.object

/-! ### IOperation / OperationWrapper / TypeErasureContainer
(pattern/dp_type_erasure_optimized.cpp)

`IOperation::execute` is non-const: the wrapped operation may mutate its
own state while producing output, so `execute` on a capability record
returns the printed line together with the updated object. -/

/-- The capability set of `IOperation` wrappees: `execute()` (non-const,
returning its output line and the possibly mutated object) and
`getType() const`. -/
structure ExecCapable (T : Type) where
  execute : T → String × T
  getType : T → String

/-- A heap-allocated `OperationWrapper<T>` object held through a
`unique_ptr<IOperation>`. -/
structure OperationObj : Type 1 where
  Ty : Type
  inst : ExecCapable Ty
  operation_ : Ty

/-- The constructor `OperationWrapper<T>(T operation)`. -/
def OperationObj.wrap {T : Type} (inst : ExecCapable T) (v : T) : OperationObj :=
  ⟨T, inst, v⟩

/-- Models `OperationWrapper<T>::execute()` : virtually dispatches to
`operation_.execute()`; only the stored object can change. -/
def OperationObj.executeOp (o : OperationObj) : String × OperationObj :=
  ((o.inst.execute o.operation_).1, ⟨o.Ty, o.inst, (o.inst.execute o.operation_).2⟩)

/-- Models `OperationWrapper<T>::getType() const`. -/
def OperationObj.getTypeOp (o : OperationObj) : String :=
  o.inst.getType o.operation_

/-- Models `TypeErasureContainer`: the `operations_` vector. -/
structure TypeErasureContainer : Type 1 where
  operations_ : List OperationObj

/-- The default (empty) container. -/
def TypeErasureContainer.empty : TypeErasureContainer := ⟨[]⟩

/-- Models `TypeErasureContainer::add(T value)` : `push_back` of a freshly
wrapped `OperationWrapper<T>`. -/
def TypeErasureContainer.add {T : Type} (c : TypeErasureContainer)
    (inst : ExecCapable T) (value : T) : TypeErasureContainer :=
  ⟨c.operations_ ++ [OperationObj.wrap inst value]⟩

/-- Models `TypeErasureContainer::executeAll()` : one pass over `operations_`
in vector order, calling `op->execute()` on each element; returns the
output lines in traversal order and the container afterwards. -/
def TypeErasureContainer.executeAll (c : TypeErasureContainer) :
    List String × TypeErasureContainer :=
  (c.operations_.map fun o => o.executeOp.1,
   ⟨c.operations_.map fun o => o.executeOp.2⟩)

/-- Models `TypeErasureContainer::size() const`. -/
def TypeErasureContainer.size (c : TypeErasureContainer) : Nat :=
  c.operations_.length

/-- Successive `add` calls from a list of already-wrapped operations. -/
def TypeErasureContainer.addAll (c : TypeErasureContainer)
    (os : List OperationObj) : TypeErasureContainer :=
  os.foldl (fun acc o => ⟨acc.operations_ ++ [o]⟩) c

/-- Models `PrintOperation` (message_ member). -/
structure PrintOperation where
  message_ : String
deriving DecidableEq, Repr

/-- Models `PrintOperation::execute()` : prints and leaves the object unchanged. -/
def PrintOperation.execute (p : PrintOperation) : String × PrintOperation :=
  ("Printing: " ++ p.message_, p)

/-- Models `PrintOperation::getType() const`. -/
def PrintOperation.getType (_ : PrintOperation) : String := "Print"

/-- The `{execute, getType}` capability record of `PrintOperation`. -/
def PrintOperation.capability : ExecCapable PrintOperation :=
  ⟨PrintOperation.execute, PrintOperation.getType⟩

/-- Models `MathOperation` (value_ member). -/
structure MathOperation where
  value_ : Int
deriving DecidableEq, Repr

/-- Models `MathOperation::execute()`. -/
def MathOperation.execute (m : MathOperation) : String × MathOperation :=
  ("Calculating with value: " ++ toString m.value_, m)

/-- Models `MathOperation::getType() const`. -/
def MathOperation.getType (_ : MathOperation) : String := "Math"

/-- The `{execute, getType}` capability record of `MathOperation`. -/
def MathOperation.capability : ExecCapable MathOperation :=
  ⟨MathOperation.execute, MathOperation.getType⟩

/-! ### BadTypeEraser and AnyTypeEraser
(pattern/dp_type_erasure_optimized.cpp)

Both store one value of an arbitrary concrete type together with its
runtime type identity.  The concrete types that flow into them in this
translation unit are closed, so the stored value is an element of a
tagged universe `CppVal` and `typeid` comparison is tag equality. -/

/-- Runtime type tags (`std::type_info` identities) of the value types
used with the type-checked erasers. -/
inductive TypeTag where
  | intT
  | calculatorT
  | adderT
  | multiplierT
deriving DecidableEq, Repr

/-- A stored concrete value, tagged by its type. -/
inductive CppVal where
  | vInt (n : Int)
  | vCalculator (c : Calculator)
  | vAdder (a : Adder)
  | vMultiplier (m : Multiplier)
deriving DecidableEq, Repr

/-- Models `typeid` of a stored value. -/
def CppVal.typeOf : CppVal → TypeTag
  | .vInt _ => .intT
  | .vCalculator _ => .calculatorT
  | .vAdder _ => .adderT
  | .vMultiplier _ => .multiplierT

/-- Models `BadTypeEraser`: `void* data_` plus `const std::type_info* type_`
(`none` = null pointer). -/
structure BadTypeEraser where
  data_ : Option CppVal
  type_ : Option TypeTag
deriving DecidableEq, Repr

/-- Models `BadTypeEraser()` : both pointers null. -/
def BadTypeEraser.defaultCtor : BadTypeEraser := ⟨none, none⟩

/-- The template constructor `BadTypeEraser(const T& value)` :
`data_(new T(value)), type_(&typeid(T))`. -/
def BadTypeEraser.ofValue (v : CppVal) : BadTypeEraser :=
  ⟨some v, some v.typeOf⟩

/-- Models `BadTypeEraser::get<T>()` : returns `data_` as a `T*` when `type_`
is non-null and equals `typeid(T)`, else `nullptr`; no member is
modified, so the post-state is the receiver.  The result `Option CppVal`
is the pointee reachable through the returned pointer. -/
def BadTypeEraser.get (e : BadTypeEraser) (t : TypeTag) :
    Option CppVal × BadTypeEraser :=
  (match e.type_ with
   | some t0 => if t0 = t then e.data_ else none
   | none => none,
   e)

/-- Models `AnyTypeEraser`: the `std::any data_` member. -/
structure AnyTypeEraser where
  data_ : Option CppVal
deriving DecidableEq, Repr

/-- Models `AnyTypeEraser()` : empty `std::any`. -/
def AnyTypeEraser.defaultCtor : AnyTypeEraser := ⟨none⟩

/-- The template constructor `AnyTypeEraser(T value)`. -/
def AnyTypeEraser.ofValue (v : CppVal) : AnyTypeEraser := ⟨some v⟩

/-- Models `AnyTypeEraser::get<T>()` : `std::any_cast<T>(&data_)`, a non-null
pointer to the stored value exactly when the stored type is `T`;
non-mutating. -/
def AnyTypeEraser.get (e : AnyTypeEraser) (t : TypeTag) :
    Option CppVal × AnyTypeEraser :=
  (match e.data_ with
   | some v => if v.typeOf = t then some v else none
   | none => none,
   e)

/-- Models `AnyTypeEraser::hasValue() const` : `data_.has_value()`. -/
def AnyTypeEraser.hasValue (e : AnyTypeEraser) : Bool :=
  e.data_.isSome

/-! ### Capability traits and ConceptBasedEraser
(pattern/dp_type_erasure_optimized.cpp)

The SFINAE traits probe a type for the presence of members; a type's
member surface is described by a `TypeDesc`. -/

/-- Which capability members a concrete type declares. -/
structure TypeDesc where
  hasPrint : Bool
  hasCalculate : Bool
  hasExecute : Bool
  hasGetType : Bool
deriving DecidableEq, Repr

/-- Models `is_printable<T>` : detects `declval<T>().print()`. -/
def is_printable (t : TypeDesc) : Bool := t.hasPrint

/-- Models `is_calculable<T>` : detects `declval<T>().calculate(int)`. -/
def is_calculable (t : TypeDesc) : Bool := t.hasCalculate

/-- Models `is_executable<T>` : detects both `execute()` and `getType()`. -/
def is_executable (t : TypeDesc) : Bool := t.hasExecute && t.hasGetType

/-- Member surface of `Calculator` (print, calculate; no execute). -/
def CalculatorDesc : TypeDesc := ⟨true, true, false, false⟩

/-- Member surface of `Adder`. -/
def AdderDesc : TypeDesc := ⟨true, true, false, false⟩

/-- Member surface of `PrintOperation` (execute, getType). -/
def PrintOperationDesc : TypeDesc := ⟨false, false, true, true⟩

/-- Member surface of `MathOperation`. -/
def MathOperationDesc : TypeDesc := ⟨false, false, true, true⟩

/-- Models `ConceptBasedEraser<T>` : the class template carries
`static_assert(is_executable<T>::value, "T must be executable")`, so an
instance can only exist together with a proof that the trait holds; the
`value_` member is the wrapped value. -/
structure ConceptBasedEraser (t : TypeDesc) (V : Type) where
  static_check : is_executable t = true
  value_ : V

/-! ### Concrete scenario: the shapes of cpp/dp_type_erasure.cpp `main` -/

/-- Wrapping `Circle(5.0)` into an empty heap. -/
def shapesStep1 : DrawHeap × Drawable :=
  Drawable.make [] Circle.capability ⟨5⟩

/-- Wrapping `Rectangle(3.0, 4.0)` next. -/
def shapesStep2 : DrawHeap × Drawable :=
  Drawable.make shapesStep1.1 Rectangle.capability ⟨3, 4⟩

/-- The heap after both wraps. -/
def shapesHeap : DrawHeap := shapesStep2.1

/-- The container of the two wrapped shapes, in insertion order. -/
def shapes : List Drawable := [shapesStep1.2, shapesStep2.2]

/-! ### A movable wrappee with observable move semantics

The `ModernTypeEraser` constructor is a template over every type
offering `print` and `calculate`; to exercise it beyond the trivially
copyable example types, this test type holds a `std::string` member read
by both capabilities.  Its defaulted member-wise move transfers the
string buffer and leaves the source string empty (the state the
mainstream library implementations produce). -/

/-- A `{print, calculate}`-capable type with a `std::string tag_` member
and an `int multiplier_` member; `calculate` adds the tag length. -/
structure TaggedCalculator where
  tag_ : String
  multiplier_ : Int
deriving DecidableEq, Repr

/-- Output line of `TaggedCalculator::print`. -/
def TaggedCalculator.print (t : TaggedCalculator) : String :=
  "TaggedCalculator " ++ t.tag_

/-- Result of `TaggedCalculator::calculate(int)`:
`value * multiplier_ + tag_.length()`. -/
def TaggedCalculator.calculate (t : TaggedCalculator) (value : Int) : Int :=
  value * t.multiplier_ + (t.tag_.length : Int)

/-- The `{print, calculate}` capability record of `TaggedCalculator`. -/
def TaggedCalculator.capability : PrintCalcCapable TaggedCalculator :=
  ⟨TaggedCalculator.print, TaggedCalculator.calculate⟩

/-- Move semantics of `TaggedCalculator`: member-wise move empties the
`std::string` member and copies the `int` member. -/
def TaggedCalculator.moveSemantics : MoveSemantics TaggedCalculator :=
  ⟨fun t => ⟨"", t.multiplier_⟩⟩

/-! ### Theorems -/

/-- Operations stored by `addAll` are the previous contents followed by
the appended elements, in order. -/
theorem TypeErasureContainer.addAll_operations (c : TypeErasureContainer)
    (os : List OperationObj) :
    (c.addAll os).operations_ = c.operations_ ++ os := by
  induction os generalizing c with
  | nil => simp [TypeErasureContainer.addAll]
  | cons o os ih =>
    show (TypeErasureContainer.addAll ⟨c.operations_ ++ [o]⟩ os).operations_ = _
    rw [ih]
    simp

/-- C1 counterexample: wrapping a `TaggedCalculator("abc", 1)` — a
concrete type satisfying the `{print, calculate}` capability set — in a
`ModernTypeEraser` and invoking `calculate(0)` returns `0`, while the
direct call on the unwrapped instance returns `3`: the constructor's
second `[value = std::move(value)]` init-capture bound `calculateFunc_`
to the moved-from parameter, whose `std::string` member is empty, so the
erased invocation does not reach the originally wrapped value and does
not equal the direct call. -/
theorem c1_moved_from_capture_counterexample :
    (ModernTypeEraser.ofValue TaggedCalculator.capability
        TaggedCalculator.moveSemantics ⟨"abc", 1⟩ "TaggedCalculator").calculate 0
      = 0
    ∧ TaggedCalculator.capability.calculate ⟨"abc", 1⟩ 0 = 3
    ∧ (ModernTypeEraser.ofValue TaggedCalculator.capability
        TaggedCalculator.moveSemantics ⟨"abc", 1⟩ "TaggedCalculator").calculate 0
      ≠ TaggedCalculator.capability.calculate ⟨"abc", 1⟩ 0 := by
  refine ⟨by decide, by decide, by decide⟩

/-- C1 amended: for `Drawable`, `Callable` and `Serializable` — which
forward the wrapped value once into their `Model` cell — invoking each
capability on the wrapper yields exactly the direct call's result, and
for `Drawable` the cell the invocation dereferences is the one allocated
at wrap time, still holding the originally wrapped value.  For
`ModernTypeEraser`, `print` reaches the originally captured value, but
the successive move init-captures bind `calculate` to the moved-from
parameter state, so the erased `calculate` equals the direct call
exactly on values their type's move leaves unchanged (in particular the
trivially copyable `Calculator`, `Adder`, `Multiplier`). -/
theorem c1_wrap_invoke_equals_direct :
    (∀ (h : DrawHeap) (T : Type) (inst : DrawCapable T) (v : T),
      Drawable.draw (Drawable.make h inst v).1 (Drawable.make h inst v).2
          = some (inst.draw v)
      ∧ (Drawable.make h inst v).1[h.length]? = some ⟨T, inst, v⟩)
    ∧ (∀ (F : Type) (inst : CallCapable F) (f : F) (x : Int),
      (CallableObj.wrap inst f).call x = inst.call f x)
    ∧ (∀ (T : Type) (inst : SerializeCapable T) (v : T),
      (SerializableObj.wrap inst v).serialize = inst.serialize v)
    ∧ (∀ (T : Type) (cap : PrintCalcCapable T) (mv : MoveSemantics T) (v : T)
        (tyName : String) (x : Int),
      (ModernTypeEraser.ofValue cap mv v tyName).printOut = [cap.print v]
      ∧ (ModernTypeEraser.ofValue cap mv v tyName).calculate x
          = cap.calculate (mv.movedFrom v) x
      ∧ (mv.movedFrom v = v →
          (ModernTypeEraser.ofValue cap mv v tyName).calculate x
            = cap.calculate v x)) := by
  refine ⟨fun h T inst v => ⟨?_, ?_⟩, fun F inst f x => rfl,
    fun T inst v => rfl,
    fun T cap mv v tyName x => ⟨rfl, rfl, fun hmv => by rw [show
      (ModernTypeEraser.ofValue cap mv v tyName).calculate x
        = cap.calculate (mv.movedFrom v) x from rfl, hmv]⟩⟩
  · simp [Drawable.make, Drawable.draw, List.getElem?_concat_length]
  · exact List.getElem?_concat_length h ⟨T, inst, v⟩

/-- C1 witness: `Calculator`'s move leaves the value unchanged, so the
amended equality applies to the wrapped `Calculator(5)` at input 7. -/
theorem c1_wrap_invoke_equals_direct_witness :
    (ModernTypeEraser.ofValue Calculator.capability Calculator.moveSemantics
        ⟨5⟩ "Calculator").calculate 7
      = Calculator.capability.calculate ⟨5⟩ 7 :=
  (c1_wrap_invoke_equals_direct.2.2.2 Calculator Calculator.capability
    Calculator.moveSemantics ⟨5⟩ "Calculator" 7).2.2 rfl

/-- C2: wrapping `Calculator(5)` in a `ModernTypeEraser` and invoking
`calculate(7)` returns `35`. -/
theorem c2_calculator_five_times_seven :
    (ModernTypeEraser.ofValue Calculator.capability Calculator.moveSemantics
        ⟨5⟩ "Calculator").calculate 7
      = 35 := by
  decide

/-- C3: a container built by N successive `add` calls holds exactly the
N wrapped elements in insertion order, and one `executeAll` traversal
produces exactly N invocations — the i-th output is the i-th inserted
element's own `execute` result, with no reordering and no filtering. -/
theorem c3_forEach_insertion_order :
    ∀ (os : List OperationObj),
      (TypeErasureContainer.empty.addAll os).executeAll.1
          = os.map (fun o => o.executeOp.1)
      ∧ (TypeErasureContainer.empty.addAll os).size = os.length
      ∧ ((TypeErasureContainer.empty.addAll os).executeAll.1).length
          = os.length := by
  intro os
  have h := TypeErasureContainer.addAll_operations TypeErasureContainer.empty os
  simp [TypeErasureContainer.empty] at h
  refine ⟨?_, ?_, ?_⟩ <;>
    simp [TypeErasureContainer.executeAll, TypeErasureContainer.size, h,
      TypeErasureContainer.empty]

/-- C7: wrapping a circle of radius 5 and a 3x4 rectangle, in that
order, and traversing the container invokes `draw` exactly twice — the
circle's concrete implementation first, the rectangle's second. -/
theorem c7_two_shape_traversal :
    shapes.map (Drawable.draw shapesHeap)
        = [some "Drawing circle with radius: 5", some "Drawing rectangle: 3x4"]
    ∧ shapes.length = 2 := by
  exact ⟨rfl, rfl⟩

/-- C4: copying a `Drawable` allocates fresh storage (a distinct heap
cell, never the original's), the copy's invocation result equals the
original's (the value was duplicated), and overwriting the copy's cell
with anything — the effect of any mutating capability applied to the
copy — leaves the original's subsequent `draw` result unchanged. -/
theorem c4_copy_value_independence :
    ∀ (h : DrawHeap) (d : Drawable) (i : Nat) (c c' : DrawCell),
      d.pImpl = some i → h[i]? = some c →
      (Drawable.copy h d).2.pImpl = some h.length
      ∧ d.pImpl ≠ some h.length
      ∧ Drawable.draw (Drawable.copy h d).1 (Drawable.copy h d).2
          = Drawable.draw h d
      ∧ Drawable.draw ((Drawable.copy h d).1.set h.length c') d
          = Drawable.draw h d := by
  intro h d i c c' hp hc
  have hi : i < h.length := (List.getElem?_eq_some.mp hc).1
  have hcopy : Drawable.copy h d = (h ++ [c.clone], ⟨some h.length⟩) := by
    simp [Drawable.copy, hp, hc]
  refine ⟨by rw [hcopy], ?_, ?_, ?_⟩
  · rw [hp]
    intro heq
    exact absurd (Option.some.inj heq) (Nat.ne_of_lt hi)
  · rw [hcopy]
    simp [Drawable.draw, hp, hc, List.getElem?_concat_length, DrawCell.clone]
  · rw [hcopy]
    simp only [Drawable.draw, hp, Option.some_bind]
    rw [List.getElem?_set_ne (Nat.ne_of_lt hi).symm, List.getElem?_append_left hi]

/-- C4 witness: a wrapped circle of radius 5, its copy's cell
overwritten by a radius-99 cell; the original still draws radius 5. -/
theorem c4_copy_value_independence_witness :
    Drawable.draw
        ((Drawable.copy shapesStep1.1 shapesStep1.2).1.set shapesStep1.1.length
          ⟨Circle, Circle.capability, ⟨99⟩⟩)
        shapesStep1.2
      = Drawable.draw shapesStep1.1 shapesStep1.2 :=
  (c4_copy_value_independence shapesStep1.1 shapesStep1.2 0
    ⟨Circle, Circle.capability, ⟨5⟩⟩ ⟨Circle, Circle.capability, ⟨99⟩⟩
    rfl rfl).2.2.2

/-- C5: moving an erased value transfers the stored behavior without
duplicating it — the destination `Drawable` holds the very pointer the
source held and draws identically against the unchanged heap, the
moved-from source is left null; for `ModernTypeEraser` the destination's
`calculate`, `print` and `getTypeName` results equal the source's
pre-move results while `isValid()` is `false` on the moved-from source. -/
theorem c5_move_transfers_without_duplication :
    (∀ (h : DrawHeap) (src : Drawable),
      (Drawable.moveCtor src).1.pImpl = src.pImpl
      ∧ (Drawable.moveCtor src).2.pImpl = none
      ∧ Drawable.draw h (Drawable.moveCtor src).1 = Drawable.draw h src)
    ∧ (∀ (e : ModernTypeEraser) (x : Int),
      (ModernTypeEraser.moveCtor e).1.calculate x = e.calculate x
      ∧ (ModernTypeEraser.moveCtor e).1.printOut = e.printOut
      ∧ (ModernTypeEraser.moveCtor e).1.getTypeName = e.getTypeName
      ∧ (ModernTypeEraser.moveCtor e).2.isValid = false) := by
  exact ⟨fun h src => ⟨rfl, rfl, rfl⟩, fun e x => ⟨rfl, rfl, rfl, rfl⟩⟩

/-- C6 counterexample: on a default-constructed-empty (equivalently
moved-from) instance the implementation *does* defend with runtime
checks and produces defined fallback results — `ModernTypeEraser`
reports invalidity, `calculate(7)` returns the guarded fallback `0`,
`print` is a guarded no-op, and `FunctionTypeEraser::getTypeName`
returns the fallback `"Unknown"` — contradicting the claim that no
guard exists and no defined fallback result is produced. -/
theorem c6_guarded_fallback_counterexample :
    ModernTypeEraser.defaultCtor.isValid = false
    ∧ ModernTypeEraser.defaultCtor.calculate 7 = 0
    ∧ ModernTypeEraser.defaultCtor.printOut = []
    ∧ FunctionTypeEraser.movedFrom.calculate 7 = 0
    ∧ FunctionTypeEraser.movedFrom.getTypeName = "Unknown"
    ∧ FunctionTypeEraser.movedFrom.printOut = [] := by
  exact ⟨rfl, rfl, rfl, rfl, rfl, rfl⟩

/-- C6 amended: only the pImpl-based `Drawable` leaves the empty-instance
invocation undefended (a null dereference with no guard, modelled as
`none`); the `std::function`-based erasers check each stored function
before calling it and produce defined fallbacks on moved-from or
default-constructed-empty instances — `print` a no-op, `calculate` the
value `0`, `FunctionTypeEraser::getTypeName` the string `"Unknown"`. -/
theorem c6_empty_invocation_behavior :
    (∀ (h : DrawHeap) (src : Drawable),
      Drawable.draw h (Drawable.moveCtor src).2 = none)
    ∧ (∀ (x : Int),
      ModernTypeEraser.defaultCtor.calculate x = 0
      ∧ ModernTypeEraser.defaultCtor.printOut = []
      ∧ (∀ (e : ModernTypeEraser),
          (ModernTypeEraser.moveCtor e).2.calculate x = 0
          ∧ (ModernTypeEraser.moveCtor e).2.printOut = [])
      ∧ FunctionTypeEraser.movedFrom.calculate x = 0
      ∧ FunctionTypeEraser.movedFrom.getTypeName = "Unknown") := by
  exact ⟨fun h src => rfl, fun x => ⟨rfl, rfl, fun e => ⟨rfl, rfl⟩, rfl, rfl⟩⟩

/-- C8: the behavior set bound at construction is immutable — the const
capability invocations of `ModernTypeEraser` leave both bound closures
exactly as they were, and `OperationWrapper::execute`, the one mutating
invocation, can change only the captured concrete value: the wrapper
after the call still carries the same concrete type and the same
dispatch record. -/
theorem c8_behavior_set_immutable :
    (∀ (e : ModernTypeEraser) (x : Int),
      (e.calculateS x).2.printFunc_ = e.printFunc_
      ∧ (e.calculateS x).2.calculateFunc_ = e.calculateFunc_
      ∧ e.printS.2.printFunc_ = e.printFunc_
      ∧ e.printS.2.calculateFunc_ = e.calculateFunc_)
    ∧ (∀ (o : OperationObj),
      ∃ v' : o.Ty, o.executeOp.2 = ⟨o.Ty, o.inst, v'⟩) := by
  exact ⟨fun e x => ⟨rfl, rfl, rfl, rfl⟩,
    fun o => ⟨(o.inst.execute o.operation_).2, rfl⟩⟩

/-- C9: the `static_assert(is_executable<T>::value)` gate of
`ConceptBasedEraser` makes the existence of any instance imply that the
wrapped type carries the full capability set, so no wrapper is ever
created from a type missing a required operation; the SFINAE traits
evaluate to `false` exactly on types lacking the member —
`Calculator`, which has `print`/`calculate` but no
`execute`/`getType`, is rejected, while `MathOperation` passes. -/
theorem c9_compile_time_capability_check :
    (∀ (t : TypeDesc) (V : Type),
      Nonempty (ConceptBasedEraser t V) → is_executable t = true)
    ∧ is_executable CalculatorDesc = false
    ∧ is_printable CalculatorDesc = true
    ∧ is_calculable CalculatorDesc = true
    ∧ is_executable MathOperationDesc = true := by
  exact ⟨fun t V hne => hne.elim fun e => e.static_check, rfl, rfl, rfl, rfl⟩

/-- C9 witness: a `ConceptBasedEraser` instance wrapping a
`PrintOperation` exists, and the theorem applied to it yields the trait. -/
theorem c9_compile_time_capability_check_witness :
    is_executable PrintOperationDesc = true :=
  c9_compile_time_capability_check.1 PrintOperationDesc PrintOperation
    ⟨⟨rfl, ⟨"Hello, Type Erasure!"⟩⟩⟩

/-- C10: `BadTypeEraser::get<T>` and `AnyTypeEraser::get<T>` return a
pointer to the stored value exactly when `T` is the stored concrete
type, `nullptr` on a type mismatch or an empty eraser,
`AnyTypeEraser::hasValue` is `true` exactly when a value is stored, and
no `get` call modifies the eraser. -/
theorem c10_typed_get_exact_match :
    ∀ (v : CppVal) (t : TypeTag),
      ((BadTypeEraser.ofValue v).get t).1
          = (if v.typeOf = t then some v else none)
      ∧ ((BadTypeEraser.ofValue v).get t).2 = BadTypeEraser.ofValue v
      ∧ (BadTypeEraser.defaultCtor.get t).1 = none
      ∧ ((AnyTypeEraser.ofValue v).get t).1
          = (if v.typeOf = t then some v else none)
      ∧ ((AnyTypeEraser.ofValue v).get t).2 = AnyTypeEraser.ofValue v
      ∧ (AnyTypeEraser.defaultCtor.get t).1 = none
      ∧ (AnyTypeEraser.ofValue v).hasValue = true
      ∧ AnyTypeEraser.defaultCtor.hasValue = false := by
  intro v t
  refine ⟨?_, rfl, rfl, ?_, rfl, rfl, rfl, rfl⟩
  · by_cases hvt : v.typeOf = t <;>
      simp [BadTypeEraser.get, BadTypeEraser.ofValue, hvt]
  · by_cases hvt : v.typeOf = t <;>
      simp [AnyTypeEraser.get, AnyTypeEraser.ofValue, hvt]

end CleanArch
